import Mathlib

/-!
Verification development for a question-answering agent over a SQL database
(`qa_agent.py`).  The agent is a small state machine: load schema → count
attempt → generate SQL via a language model → execute → retry on error or
produce an answer.

Modelling conventions:
* Python strings are modelled as `List Char`; `lc` converts a Lean string
  literal to that representation.
* The Python dict state (`QAState`, a `TypedDict` with `total=False`) is a
  structure whose possibly-absent keys are `Option` fields; `d.get(k, v)` is
  `Option.getD`, and Python `or`-defaulting on falsy values is `pyOrS`/`pyOrJ`.
* External collaborators are oracles: the database connection, the injected
  model function (`llm`), the `json` standard-library parser and the wall
  clock.  The model function and the database are indexed by a call counter so
  that every possible sequence of responses/outcomes is covered.  Trace
  timestamps (wall clock) are not modelled; trace events keep the node name
  and the structured payload, which is all the specification speaks about.
* Machine-level glue that the claims do not touch (the OpenAI transport,
  `load_sql_file`, the demo `__main__` block, `format_trace`) is not embedded.
-/

/-- Convert a Lean string literal to the `List Char` representation used for
Python strings throughout this development. -/
abbrev lc (s : String) : List Char := s.toList

/-- Whitespace characters stripped by Python `str.strip()` (the ASCII ones;
`str.strip` also strips a few rare Unicode space characters that cannot occur
in any text this program manipulates). -/
def pyWs (c : Char) : Bool :=
  c = ' ' || c = '\t' || c = '\n' || c = '\r' || c = '\x0b' || c = '\x0c'

/-- Python `str.strip()`: drop leading and trailing whitespace. -/
def pyStrip (l : List Char) : List Char :=
  ((l.dropWhile pyWs).reverse.dropWhile pyWs).reverse

/-- Python `str.rstrip(";")`: drop trailing semicolon characters. -/
def pyRstripSemi (l : List Char) : List Char :=
  (l.reverse.dropWhile (fun c => c == ';')).reverse

/-- Python `str.lower()`.  `Char.toLower` lowercases ASCII letters, which is
what all keyword matching in the program relies on; Python additionally
lowercases non-ASCII letters, none of which lowercase into the ASCII keywords
being matched. -/
def lowerL (l : List Char) : List Char := l.map Char.toLower

/-- Decimal rendering of a natural number, as Python `str`/f-string formatting
produces for a non-negative int. -/
def natLex (n : Nat) : List Char := (Nat.repr n).toList

/-- Python substring test `needle in hay`. -/
def containsSeq (hay needle : List Char) : Bool :=
  match hay with
  | [] => needle.isEmpty
  | _ :: t => needle.isPrefixOf hay || containsSeq t needle

/-- Index of the first occurrence of a character, `none` when absent
(Python `str.find` returns `-1` for absence). -/
def pyFindAux (c : Char) : List Char → Option Nat
  | [] => none
  | x :: t => if x == c then some 0 else (pyFindAux c t).map (· + 1)

/-- Python `str.find(c)` as an `Option Nat`. -/
def pyFind (l : List Char) (c : Char) : Option Nat := pyFindAux c l

/-- Python `str.rfind(c)` (index of last occurrence) as an `Option Nat`. -/
def pyRfind (l : List Char) (c : Char) : Option Nat :=
  (pyFindAux c l.reverse).map (fun i => l.length - 1 - i)

/-- Values produced by parsing JSON text, as Python `json.loads` returns them
(dicts keep key order).  Numbers are kept as their source lexeme: no claim
inspects a numeric value, and identical lexemes compare equal, which is all
the development needs. -/
inductive Json where
  | null
  | bool (b : Bool)
  | num (s : List Char)
  | str (s : List Char)
  | arr (xs : List Json)
  | obj (fields : List (List Char × Json))

/-- Python `dict.get` on a parsed JSON object: last binding of a key wins,
mirroring how `json.loads` builds a dict from duplicate keys. -/
def jGet (fields : List (List Char × Json)) (k : List Char) : Option Json :=
  fields.foldl (fun acc p => if p.1 = k then some p.2 else acc) none

/-- Python truthiness of a parsed JSON value.  A numeric lexeme counts as
falsy when it contains no nonzero digit (`0`, `0.0`, `-0e5`, …); this matches
Python except for floats so tiny they underflow to `0.0`, which cannot be
produced by the generation contract this program uses. -/
def jTruthy : Json → Bool
  | .null => false
  | .bool b => b
  | .num s => s.any (fun c => '1' ≤ c && c ≤ '9')
  | .str s => !s.isEmpty
  | .arr xs => !xs.isEmpty
  | .obj fs => !fs.isEmpty

/-- Python `x or default` for an optional string whose absence and emptiness
are both falsy. -/
def pyOrS (o : Option (List Char)) (d : List Char) : List Char :=
  match o with
  | some v => if v = [] then d else v
  | none => d

/-- Python `x or default` for an optional JSON value. -/
def pyOrJ (o : Option Json) (d : Json) : Json :=
  match o with
  | some v => if jTruthy v then v else d
  | none => d

/-! JSON parsing: an executable model of `json.loads`, used to instantiate
the library-parser oracle in concrete runs.  Whitespace handling, literals,
strings with escapes, strict number syntax and the `NaN`/`Infinity`
extensions follow the Python implementation; `\uXXXX` escapes decode a single
code unit (surrogate pairs are not recombined, something no input in this
development exercises). -/

/-- Whitespace skipped by the JSON grammar. -/
def jsonWs (c : Char) : Bool := c = ' ' || c = '\t' || c = '\n' || c = '\r'

/-- Value of a hexadecimal digit. -/
def hexVal? (c : Char) : Option Nat :=
  if '0' ≤ c ∧ c ≤ '9' then some (c.toNat - 48)
  else if 'a' ≤ c ∧ c ≤ 'f' then some (c.toNat - 87)
  else if 'A' ≤ c ∧ c ≤ 'F' then some (c.toNat - 55)
  else none

/-- Single-character JSON string escapes. -/
def escChar? (c : Char) : Option Char :=
  if c = '"' then some '"'
  else if c = '\\' then some '\\'
  else if c = '/' then some '/'
  else if c = 'b' then some '\x08'
  else if c = 'f' then some '\x0c'
  else if c = 'n' then some '\n'
  else if c = 'r' then some '\r'
  else if c = 't' then some '\t'
  else none

/-- Parse the body of a JSON string after the opening quote, returning the
decoded characters and the remaining input after the closing quote. -/
def parseStrBody : List Char → Option (List Char × List Char)
  | [] => none
  | '"' :: rest => some ([], rest)
  | '\\' :: 'u' :: a :: b :: c :: d :: rest =>
    match hexVal? a, hexVal? b, hexVal? c, hexVal? d with
    | some x1, some x2, some x3, some x4 =>
      (parseStrBody rest).map
        (fun r => (Char.ofNat (((x1 * 16 + x2) * 16 + x3) * 16 + x4) :: r.1, r.2))
    | _, _, _, _ => none
  | '\\' :: e :: rest =>
    match escChar? e with
    | some ch => (parseStrBody rest).map (fun r => (ch :: r.1, r.2))
    | none => none
  | c :: rest =>
    if c.toNat < 32 then none
    else (parseStrBody rest).map (fun r => (c :: r.1, r.2))

/-- Split off a run of decimal digits. -/
def spanDigits (l : List Char) : List Char × List Char := l.span (fun c => c.isDigit)

/-- Parse the exponent digits after `e`/`E` and an optional sign. -/
def parseExpTail (acc : List Char) (l : List Char) : Option (List Char × List Char) :=
  let (sgn, t) := match l with
    | '+' :: t => ((['+'] : List Char), t)
    | '-' :: t => ((['-'] : List Char), t)
    | _ => (([] : List Char), l)
  match spanDigits t with
  | ([], _) => none
  | (ds, t2) => some (acc ++ sgn ++ ds, t2)

/-- Parse an optional exponent part of a JSON number. -/
def parseExpPart (acc : List Char) (l : List Char) : Option (List Char × List Char) :=
  match l with
  | 'e' :: t => parseExpTail (acc ++ ['e']) t
  | 'E' :: t => parseExpTail (acc ++ ['E']) t
  | _ => some (acc, l)

/-- Parse an optional fraction part of a JSON number, then the exponent. -/
def parseFracPart (acc : List Char) (l : List Char) : Option (List Char × List Char) :=
  match l with
  | '.' :: t =>
    match spanDigits t with
    | ([], _) => none
    | (ds, t2) => parseExpPart (acc ++ '.' :: ds) t2
  | _ => parseExpPart acc l

/-- Parse a JSON number lexeme (strict grammar: optional minus, `0` or a
nonzero-led digit run, optional fraction, optional exponent). -/
def parseNum (l : List Char) : Option (List Char × List Char) :=
  let (sign, l1) := match l with
    | '-' :: t => ((['-'] : List Char), t)
    | _ => (([] : List Char), l)
  match l1 with
  | c :: t =>
    if c = '0' then parseFracPart (sign ++ ['0']) t
    else if c.isDigit then
      let (ds, t2) := spanDigits t
      parseFracPart (sign ++ c :: ds) t2
    else none
  | [] => none

mutual

/-- Parse one JSON value, fuel-indexed for termination. -/
def parseVal : Nat → List Char → Option (Json × List Char)
  | 0, _ => none
  | fuel + 1, l =>
    match l.dropWhile jsonWs with
    | '{' :: t =>
      match t.dropWhile jsonWs with
      | '}' :: r => some (.obj [], r)
      | t2 => (parseMembers fuel t2).map (fun r => (Json.obj r.1, r.2))
    | '[' :: t =>
      match t.dropWhile jsonWs with
      | ']' :: r => some (.arr [], r)
      | t2 => (parseItems fuel t2).map (fun r => (Json.arr r.1, r.2))
    | '"' :: t => (parseStrBody t).map (fun r => (Json.str r.1, r.2))
    | 't' :: 'r' :: 'u' :: 'e' :: r => some (.bool true, r)
    | 'f' :: 'a' :: 'l' :: 's' :: 'e' :: r => some (.bool false, r)
    | 'n' :: 'u' :: 'l' :: 'l' :: r => some (.null, r)
    | 'N' :: 'a' :: 'N' :: r => some (.num (lc "NaN"), r)
    | 'I' :: 'n' :: 'f' :: 'i' :: 'n' :: 'i' :: 't' :: 'y' :: r =>
      some (.num (lc "Infinity"), r)
    | '-' :: 'I' :: 'n' :: 'f' :: 'i' :: 'n' :: 'i' :: 't' :: 'y' :: r =>
      some (.num (lc "-Infinity"), r)
    | l2 => (parseNum l2).map (fun r => (Json.num r.1, r.2))

/-- Parse the members of a JSON object after the opening brace (nonempty
case), up to and including the closing brace. -/
def parseMembers : Nat → List Char → Option (List (List Char × Json) × List Char)
  | 0, _ => none
  | fuel + 1, l =>
    match l.dropWhile jsonWs with
    | '"' :: t =>
      match parseStrBody t with
      | none => none
      | some (k, t2) =>
        match t2.dropWhile jsonWs with
        | ':' :: t3 =>
          match parseVal fuel t3 with
          | none => none
          | some (v, t4) =>
            match t4.dropWhile jsonWs with
            | ',' :: t5 => (parseMembers fuel t5).map (fun r => ((k, v) :: r.1, r.2))
            | '}' :: t5 => some ([(k, v)], t5)
            | _ => none
        | _ => none
    | _ => none

/-- Parse the items of a JSON array after the opening bracket (nonempty
case), up to and including the closing bracket. -/
def parseItems : Nat → List Char → Option (List Json × List Char)
  | 0, _ => none
  | fuel + 1, l =>
    match parseVal fuel l with
    | none => none
    | some (v, t) =>
      match t.dropWhile jsonWs with
      | ',' :: t2 => (parseItems fuel t2).map (fun r => (v :: r.1, r.2))
      | ']' :: t2 => some ([v], t2)
      | _ => none

end

/-- Executable model of `json.loads`: parse one value and require only
whitespace after it. -/
def jsonLoads (l : List Char) : Option Json :=
  match parseVal (2 * l.length + 2) l with
  | some (v, rest) => if (rest.dropWhile jsonWs).isEmpty then some v else none
  | none => none

/-- Escape a string for JSON output (quote, backslash and the common control
characters; other control characters do not occur in this development). -/
def escStr : List Char → List Char
  | [] => []
  | c :: t =>
    (if c = '"' then lc "\\\""
     else if c = '\\' then lc "\\\\"
     else if c = '\n' then lc "\\n"
     else if c = '\r' then lc "\\r"
     else if c = '\t' then lc "\\t"
     else [c]) ++ escStr t

mutual

/-- Serialization of a JSON value as Python `json.dumps` with
`ensure_ascii=False` renders it (default separators `", "` and `": "`). -/
def jsonDumps : Json → List Char
  | .null => lc "null"
  | .bool true => lc "true"
  | .bool false => lc "false"
  | .num s => s
  | .str s => '"' :: escStr s ++ ['"']
  | .arr xs => '[' :: dumpArr xs ++ [']']
  | .obj fs => '{' :: dumpObj fs ++ ['}']

/-- Comma-separated serialization of array items. -/
def dumpArr : List Json → List Char
  | [] => []
  | [x] => jsonDumps x
  | x :: xs => jsonDumps x ++ lc ", " ++ dumpArr xs

/-- Comma-separated serialization of object members. -/
def dumpObj : List (List Char × Json) → List Char
  | [] => []
  | [(k, v)] => '"' :: escStr k ++ lc "\": " ++ jsonDumps v
  | (k, v) :: fs => '"' :: escStr k ++ lc "\": " ++ jsonDumps v ++ lc ", " ++ dumpObj fs

end

/-- Model of `_parse_json`, parameterised by the library parser `loads`
(the `json` module is an external collaborator; `jsonLoads` is the concrete
instance used in concrete runs).  Try a direct parse of the stripped text;
on failure, extract the span from the first `\x7b` to the last `\x7d` and
parse that; `none` models the exception propagating to the caller. -/
def parse_json (loads : List Char → Option Json) (text : List Char) : Option Json :=
  match loads (pyStrip text) with
  | some v => some v
  | none =>
    match pyFind (pyStrip text) '{', pyRfind (pyStrip text) '}' with
    | some st, some en =>
      if st < en then loads (((pyStrip text).drop st).take (en + 1 - st)) else none
    | _, _ => none

/-- One trace event: the originating node's name and its structured payload.
The source also stores a wall-clock timestamp (`ts_ms`), an external input
that no claim depends on and that is therefore not modelled. -/
structure TraceEvent where
  node : List Char
  data : List (List Char × Json)

/-- The shared state dict (`QAState`, a `TypedDict` with `total=False`):
possibly-absent keys are `Option` fields.  `clarification_question` and
`sql_params` hold whatever JSON value the parsed model response supplied. -/
structure QAState where
  question : List Char
  schema : Option (List Char)
  decision : Option (List Char)
  clarification_question : Option Json
  sql : Option (List Char)
  sql_params : Option Json
  attempts : Option Nat
  last_error : Option (List Char)
  columns : Option (List (List Char))
  rows : Option (List (List Json))
  answer : Option Json
  trace : List TraceEvent

/-- Immutable runtime configuration (`AgentConfig`). -/
structure AgentConfig where
  max_attempts : Nat := 2
  max_rows : Nat := 50

/-- Outcome of one database execution: column names and rows on success, the
textual form of the raised exception on failure. -/
inductive ExecResult where
  | ok (cols : List (List Char)) (rows : List (List Json))
  | err (msg : List Char)

/-- External collaborators of one run.  `llm` and `db` are indexed by a call
counter so that an arbitrary sequence of model responses and execution
outcomes (including two different outcomes for the same input) is expressible.
`loads`/`loadsErr` model the `json` standard library: the parser and the text
of the exception it raises on failure. -/
structure Oracles where
  schemaText : List Char
  loads : List Char → Option Json
  loadsErr : List Char → List Char
  llm : Nat → List Char → List Char
  db : Nat → List Char → Json → ExecResult

/-- Model of `_trace`: append one event to `state["trace"]`. -/
def addTrace (s : QAState) (node : List Char) (data : List (List Char × Json)) : QAState :=
  { s with trace := s.trace ++ [⟨node, data⟩] }

/-- Repair section of the generation prompt: present exactly when
`last_error` is non-empty. -/
def sqlRepair (e : List Char) : List Char :=
  if e = [] then [] else lc "\nPrevious SQL failed: " ++ e ++ lc "\nFix it.\n"

/-- Opening lines of the generation prompt, up to and including the
`Schema:` header (the braces of the required JSON shapes are written with
hexadecimal escapes). -/
def sqlPromptHeader : List Char :=
  lc "\nYou are a careful data assistant. Convert the user question into a single SQL SELECT query.\nRules:\n- Use ONLY tables/columns in the schema. Prefer explicit JOINs.\n- If the question is ambiguous, ask for clarification instead of guessing.\n- Return STRICT JSON only (no markdown):\n  \x7b\"type\":\"sql\",\"sql\":\"...\",\"params\":\x7b\x7d\x7d  or  \x7b\"type\":\"clarify\",\"question\":\"...\"\x7d\nSchema:\n"

/-- Model of `_sql_prompt`: the SQL-generation prompt (the f-string template
with `textwrap.dedent`, which is the identity on this template, followed by
`str.strip`). -/
def _sql_prompt (question schema last_error : List Char) : List Char :=
  pyStrip (sqlPromptHeader ++ schema ++ lc "\nUser question: " ++ question ++
    sqlRepair last_error ++ lc "\n")

/-- Model of `_answer_prompt`: the answer-synthesis prompt. -/
def _answer_prompt (question sql : List Char) (columns : List (List Char))
    (rows : List (List Json)) : List Char :=
  pyStrip (lc "\nYou are a helpful assistant. Write a concise, human-readable answer grounded ONLY in the SQL result.\nIf empty, say so and suggest a likely reason.\nUser question: " ++
    question ++ lc "\nSQL: " ++ sql ++ lc "\nResult: " ++
    jsonDumps (.obj [(lc "columns", .arr (columns.map .str)),
                     (lc "rows", .arr (rows.map .arr))]) ++ lc "\n")

/-- The prompt `gen_sql` sends to the model, built from the current state. -/
def genPrompt (s : QAState) : List Char :=
  _sql_prompt s.question (s.schema.getD []) (s.last_error.getD [])

/-- Node 1 (`load_schema`): store the introspected schema text and trace its
length. -/
def load_schema (O : Oracles) (s : QAState) : QAState :=
  addTrace { s with schema := some O.schemaText } (lc "load_schema")
    [(lc "chars", .num (natLex O.schemaText.length))]

/-- Node 5 (`inc_attempts`): increment the attempt counter and trace it. -/
def inc_attempts (s : QAState) : QAState :=
  addTrace { s with attempts := some (s.attempts.getD 0 + 1) } (lc "attempt")
    [(lc "n", .num (natLex (s.attempts.getD 0 + 1)))]

/-- The row-limit guard of `gen_sql`: append a `LIMIT` clause bounding
results to `max_rows` when the (lowercased) query does not already contain
one. -/
def limitedSql (cfg : AgentConfig) (v : List Char) : List Char :=
  if containsSeq (lowerL v) (lc " limit ") then v
  else v ++ lc " LIMIT " ++ natLex cfg.max_rows

/-- Validation half of `gen_sql`, reached when the parsed response is not a
clarify request: strip the query, reject non-SELECT text, append a `LIMIT`
clause when missing, and store query, parameters and a cleared error.
Returns `none` when `sql` is present but not a string (the Python `.strip()`
call would raise). -/
def gen_sql_sqlBranch (cfg : AgentConfig) (fields : List (List Char × Json))
    (s : QAState) : Option QAState :=
  match (jGet fields (lc "sql")).getD (.str []) with
  | .str s0 =>
    if !((lc "select").isPrefixOf (lowerL (pyRstripSemi (pyStrip s0)))) then
      some { s with decision := some (lc "sql"), sql := some [],
                    sql_params := some (.obj []),
                    last_error := some (lc "Only SELECT allowed.") }
    else
      some (addTrace
        { s with decision := some (lc "sql"),
                 sql := some (limitedSql cfg (pyRstripSemi (pyStrip s0))),
                 sql_params := some (pyOrJ (jGet fields (lc "params")) (.obj [])),
                 last_error := some [] }
        (lc "gen_sql") [(lc "sql", .str (limitedSql cfg (pyRstripSemi (pyStrip s0))))])
  | _ => none

/-- The part of `gen_sql` after the model call and the `llm_raw` trace event:
branch on the parse outcome (`invalidMsg` is the error text recorded on parse
failure, `f"Invalid JSON: {e}"` in the source).  Returns `none` when the
Python code would raise an uncaught exception (`.get` on a non-dict parse
result, or `.strip()` on a non-string `sql` field), aborting the run. -/
def gen_sql_parsed (cfg : AgentConfig) (parsed : Option Json)
    (invalidMsg : List Char) (s : QAState) : Option QAState :=
  match parsed with
  | none =>
    some { s with decision := some (lc "sql"), sql := some [],
                  sql_params := some (.obj []),
                  last_error := some invalidMsg }
  | some obj =>
    match obj with
    | .obj fields =>
      match jGet fields (lc "type") with
      | some (.str t) =>
        if t = lc "clarify" then
          some { s with decision := some (lc "clarify"),
                        clarification_question :=
                          some ((jGet fields (lc "question")).getD
                            (.str (lc "Can you clarify?"))) }
        else gen_sql_sqlBranch cfg fields s
      | _ => gen_sql_sqlBranch cfg fields s
    | _ => none

/-- Node 2 (`gen_sql`), given the raw model response for this cycle (the
driver computes it as `O.llm i (genPrompt s)`; in the source the call sits
inside the node, the decomposition only makes the call counter explicit):
trace the raw response, parse it and branch. -/
def gen_sql (cfg : AgentConfig) (O : Oracles) (raw : List Char) (s0 : QAState) :
    Option QAState :=
  gen_sql_parsed cfg (parse_json O.loads raw)
    (lc "Invalid JSON: " ++ O.loadsErr raw)
    (addTrace s0 (lc "llm_raw") [(lc "raw", .str raw)])

/-- Node 3 (`exec_sql`): run the stored query (if any) against the database.
The returned `Nat` is the database call counter, incremented exactly when a
query is actually executed. -/
def exec_sql (O : Oracles) (di : Nat) (s : QAState) : QAState × Nat :=
  if s.sql.getD [] = [] then
    ({ s with last_error := some (pyOrS s.last_error (lc "No SQL produced.")) }, di)
  else
    match O.db di (s.sql.getD []) (pyOrJ s.sql_params (.obj [])) with
    | .ok cols rows =>
      (addTrace { s with rows := some rows, columns := some cols, last_error := some [] }
        (lc "exec_sql") [(lc "rows", .num (natLex rows.length))], di + 1)
    | .err e =>
      (addTrace { s with columns := some [], rows := some [], last_error := some e }
        (lc "exec_sql_error") [(lc "error", .str e)], di + 1)

/-- Conditional edge after `exec_sql` (`should_retry`): retry exactly when
the decision is not clarify, the last error is truthy, and the attempt count
is below the configured maximum. -/
def should_retry (cfg : AgentConfig) (s : QAState) : Bool :=
  decide (s.decision ≠ some (lc "clarify")) &&
    !(s.last_error.getD []).isEmpty &&
    decide (s.attempts.getD 0 < cfg.max_attempts)

/-- The deterministic user-facing error template of the `answer` node. -/
def errAnswer (e : List Char) : List Char :=
  lc "Couldn\x27t run a valid SQL query.\nError: " ++ e ++
    lc "\nTry rephrasing or adding missing details."

/-- Node 4 (`answer`): produce the final answer.  The returned `Nat` is the
model call counter, incremented exactly when the model is invoked. -/
def answer (O : Oracles) (li : Nat) (s : QAState) : QAState × Nat :=
  if s.decision = some (lc "clarify") then
    (addTrace { s with answer := some (s.clarification_question.getD (.str (lc "Can you clarify?"))) }
      (lc "answer")
      [(lc "answer", s.clarification_question.getD (.str (lc "Can you clarify?")))], li)
  else if !(s.last_error.getD []).isEmpty then
    (addTrace { s with answer := some (.str (errAnswer (s.last_error.getD []))) }
      (lc "answer") [(lc "answer", .str (errAnswer (s.last_error.getD [])))], li)
  else
    (addTrace { s with answer := some (.str (pyStrip (O.llm li (_answer_prompt s.question
        (s.sql.getD []) (s.columns.getD []) (s.rows.getD []))))) }
      (lc "answer") [(lc "answer", .str (pyStrip (O.llm li (_answer_prompt s.question
        (s.sql.getD []) (s.columns.getD []) (s.rows.getD [])))))], li + 1)

/-- Why a run can stop without a final state: an uncaught Python exception
(`crash`), or exhaustion of the fuel of the loop model (`fuelOut`; the
development proves fuel is never exhausted at the fuel `run_question`
supplies). -/
inductive RunStop where
  | crash
  | fuelOut
deriving DecidableEq

/-- Result of a completed run: the final state, the model and database call
counters, and the list of generation prompts sent to the model (one per
generate/execute cycle). -/
structure RunOut where
  state : QAState
  llmCalls : Nat
  dbCalls : Nat
  prompts : List (List Char)

/-- The compiled graph's cycle: `attempt → gen_sql → exec_sql`, looping back
on the retry edge, otherwise finishing with the `answer` node.  `li`/`di`
are the model/database call counters, `log` accumulates generation prompts. -/
def runLoop (cfg : AgentConfig) (O : Oracles) :
    Nat → Nat → Nat → List (List Char) → QAState → Except RunStop RunOut
  | 0, _, _, _, _ => .error .fuelOut
  | f + 1, li, di, log, s =>
    match gen_sql cfg O (O.llm li (genPrompt (inc_attempts s))) (inc_attempts s) with
    | none => .error .crash
    | some s1 =>
      if should_retry cfg (exec_sql O di s1).1 then
        runLoop cfg O f (li + 1) (exec_sql O di s1).2
          (log ++ [genPrompt (inc_attempts s)]) (exec_sql O di s1).1
      else
        .ok ⟨(answer O (li + 1) (exec_sql O di s1).1).1,
             (answer O (li + 1) (exec_sql O di s1).1).2,
             (exec_sql O di s1).2, log ++ [genPrompt (inc_attempts s)]⟩

/-- Initial state of `run_question`:
`{"question": question, "trace": [], "attempts": 0}`. -/
def initState (q : List Char) : QAState :=
  { question := q, schema := none, decision := none, clarification_question := none,
    sql := none, sql_params := none, attempts := some 0, last_error := none,
    columns := none, rows := none, answer := none, trace := [] }

/-- Model of `run_question`: build the graph and run one question through
`START → load_schema → attempt → gen_sql → exec_sql → (retry | answer) → END`.
The fuel `max_attempts + 1` is shown sufficient (the loop retries only while
`attempts < max_attempts`). -/
def run_question (cfg : AgentConfig) (O : Oracles) (q : List Char) :
    Except RunStop RunOut :=
  runLoop cfg O (cfg.max_attempts + 1) 0 0 [] (load_schema O (initState q))

/-- Projection: final decision of a completed run. -/
def runDecision : Except RunStop RunOut → Option (Option (List Char))
  | .ok r => some r.state.decision
  | _ => none

/-- Projection: database call count of a completed run. -/
def runDbCalls : Except RunStop RunOut → Option Nat
  | .ok r => some r.dbCalls
  | _ => none

/-- Projection: final rows of a completed run. -/
def runRows : Except RunStop RunOut → Option (Option (List (List Json)))
  | .ok r => some r.state.rows
  | _ => none

/-- Projection: number of generate/execute cycles of a completed run. -/
def runCycleCount : Except RunStop RunOut → Option Nat
  | .ok r => some r.prompts.length
  | _ => none

/-- Projection: node names of the trace of a completed run, in order. -/
def runTraceNodes : Except RunStop RunOut → Option (List (List Char))
  | .ok r => some (r.state.trace.map TraceEvent.node)
  | _ => none

/-! Structural lemmas about the nodes, used by several claim proofs. -/

/-- A validated query stored by `gen_sql` is nonempty (it starts with the
six characters of the SELECT keyword, possibly followed by a LIMIT clause). -/
theorem storedSql_ne_nil (cfg : AgentConfig) (v : List Char)
    (hsel : (lc "select").isPrefixOf (lowerL v) = true) :
    (if containsSeq (lowerL v) (lc " limit ") then v
     else v ++ lc " LIMIT " ++ natLex cfg.max_rows) ≠ [] := by
  have hv : v ≠ [] := by
    intro hnil
    rw [hnil] at hsel
    simp [lowerL, List.isPrefixOf, lc] at hsel
  split
  · exact hv
  · simp [hv]

/-- Outcomes of the validation half of `gen_sql`: rejection of a non-SELECT
query, or a stored (nonempty) validated query. -/
theorem gen_sql_sqlBranch_shape (cfg : AgentConfig)
    (fields : List (List Char × Json)) (s s' : QAState)
    (h : gen_sql_sqlBranch cfg fields s = some s') :
    (s' = { s with decision := some (lc "sql"), sql := some [],
                   sql_params := some (.obj []),
                   last_error := some (lc "Only SELECT allowed.") }) ∨
    (∃ q ps, q ≠ [] ∧
      s' = addTrace { s with decision := some (lc "sql"), sql := some q,
                             sql_params := some ps, last_error := some [] }
            (lc "gen_sql") [(lc "sql", .str q)]) := by
  unfold gen_sql_sqlBranch at h
  split at h
  case h_2 => exact absurd h (by simp)
  case h_1 s0 hf =>
    split at h
    case isTrue hsel =>
      simp only [Option.some.injEq] at h
      exact Or.inl h.symm
    case isFalse hsel =>
      simp only [Option.some.injEq] at h
      refine Or.inr ⟨_, _, storedSql_ne_nil cfg _ ?_, h.symm⟩
      simpa using hsel

/-- The four possible outcomes of a successful `gen_sql_parsed` call: parse
failure, clarify, validation rejection, or a stored (nonempty) validated
query. -/
theorem gen_sql_parsed_shape (cfg : AgentConfig) (parsed : Option Json)
    (invalidMsg : List Char) (s s' : QAState)
    (h : gen_sql_parsed cfg parsed invalidMsg s = some s') :
    (s' = { s with decision := some (lc "sql"), sql := some [],
                   sql_params := some (.obj []),
                   last_error := some invalidMsg }) ∨
    (∃ q, s' = { s with decision := some (lc "clarify"),
                        clarification_question := some q }) ∨
    (s' = { s with decision := some (lc "sql"), sql := some [],
                   sql_params := some (.obj []),
                   last_error := some (lc "Only SELECT allowed.") }) ∨
    (∃ q ps, q ≠ [] ∧
      s' = addTrace { s with decision := some (lc "sql"), sql := some q,
                             sql_params := some ps, last_error := some [] }
            (lc "gen_sql") [(lc "sql", .str q)]) := by
  unfold gen_sql_parsed at h
  split at h
  · exact Or.inl (Option.some.inj h).symm
  · split at h
    · split at h
      · split at h
        · exact Or.inr (Or.inl ⟨_, (Option.some.inj h).symm⟩)
        · exact Or.inr (Or.inr (gen_sql_sqlBranch_shape cfg _ _ s' h))
      · exact Or.inr (Or.inr (gen_sql_sqlBranch_shape cfg _ _ s' h))
    · exact absurd h (by simp)

/-- The four possible outcomes of a successful `gen_sql` call, relative to
the input state (which first receives the `llm_raw` trace event). -/
theorem gen_sql_shape (cfg : AgentConfig) (O : Oracles) (raw : List Char)
    (s s' : QAState) (h : gen_sql cfg O raw s = some s') :
    (s' = { addTrace s (lc "llm_raw") [(lc "raw", .str raw)] with
                   decision := some (lc "sql"), sql := some [],
                   sql_params := some (.obj []),
                   last_error := some (lc "Invalid JSON: " ++ O.loadsErr raw) }) ∨
    (∃ q, s' = { addTrace s (lc "llm_raw") [(lc "raw", .str raw)] with
                   decision := some (lc "clarify"),
                   clarification_question := some q }) ∨
    (s' = { addTrace s (lc "llm_raw") [(lc "raw", .str raw)] with
                   decision := some (lc "sql"), sql := some [],
                   sql_params := some (.obj []),
                   last_error := some (lc "Only SELECT allowed.") }) ∨
    (∃ q ps, q ≠ [] ∧
      s' = addTrace { addTrace s (lc "llm_raw") [(lc "raw", .str raw)] with
                        decision := some (lc "sql"), sql := some q,
                        sql_params := some ps, last_error := some [] }
            (lc "gen_sql") [(lc "sql", .str q)]) :=
  gen_sql_parsed_shape cfg _ _ _ s' h


/-- When the response parses to an object whose `type` is not the string
`"clarify"`, `gen_sql` reduces to its validation branch. -/
theorem gen_sql_eq_branch (cfg : AgentConfig) (O : Oracles) (raw : List Char)
    (s : QAState) (fields : List (List Char × Json))
    (hp : parse_json O.loads raw = some (.obj fields))
    (ht : ∀ t, jGet fields (lc "type") = some (.str t) → t ≠ lc "clarify") :
    gen_sql cfg O raw s =
      gen_sql_sqlBranch cfg fields (addTrace s (lc "llm_raw") [(lc "raw", .str raw)]) := by
  unfold gen_sql
  rw [hp]
  unfold gen_sql_parsed
  dsimp only
  split
  · next t heq => rw [if_neg (ht t heq)]
  · rfl

/-- Validation branch, rejection case: a stripped query that does not begin
with the SELECT keyword stores an empty query and the validation error. -/
theorem gen_sql_branch_reject (cfg : AgentConfig) (fields : List (List Char × Json))
    (st : QAState) (s0 : List Char)
    (hs : (jGet fields (lc "sql")).getD (.str []) = .str s0)
    (hns : (lc "select").isPrefixOf (lowerL (pyRstripSemi (pyStrip s0))) = false) :
    gen_sql_sqlBranch cfg fields st =
      some { st with decision := some (lc "sql"), sql := some [],
                     sql_params := some (.obj []),
                     last_error := some (lc "Only SELECT allowed.") } := by
  unfold gen_sql_sqlBranch
  rw [hs]
  dsimp only
  rw [if_pos (by rw [hns]; rfl)]

/-- Validation branch, acceptance case: a SELECT query is stored with the
row limit applied and a cleared error. -/
theorem gen_sql_branch_store (cfg : AgentConfig) (fields : List (List Char × Json))
    (st : QAState) (s0 : List Char)
    (hs : (jGet fields (lc "sql")).getD (.str []) = .str s0)
    (hsel : (lc "select").isPrefixOf (lowerL (pyRstripSemi (pyStrip s0))) = true) :
    gen_sql_sqlBranch cfg fields st =
      some (addTrace
        { st with decision := some (lc "sql"),
                  sql := some (limitedSql cfg (pyRstripSemi (pyStrip s0))),
                  sql_params := some (pyOrJ (jGet fields (lc "params")) (.obj [])),
                  last_error := some [] }
        (lc "gen_sql")
        [(lc "sql", .str (limitedSql cfg (pyRstripSemi (pyStrip s0))))]) := by
  unfold gen_sql_sqlBranch
  rw [hs]
  dsimp only
  rw [if_neg (by rw [hsel]; exact (by decide : ¬((!true) = true)))]

/-- Clarify case of `gen_sql`: the decision and the clarification question
are recorded; query, parameters and error are left untouched. -/
theorem gen_sql_clarify (cfg : AgentConfig) (O : Oracles) (raw : List Char)
    (s : QAState) (fields : List (List Char × Json))
    (hp : parse_json O.loads raw = some (.obj fields))
    (ht : jGet fields (lc "type") = some (.str (lc "clarify"))) :
    gen_sql cfg O raw s =
      some { addTrace s (lc "llm_raw") [(lc "raw", .str raw)] with
               decision := some (lc "clarify"),
               clarification_question :=
                 some ((jGet fields (lc "question")).getD (.str (lc "Can you clarify?"))) } := by
  unfold gen_sql
  rw [hp]
  unfold gen_sql_parsed
  dsimp only
  rw [ht]
  dsimp only
  rw [if_pos rfl]

/-- Parse-failure case of `gen_sql`: decision `"sql"`, empty query, empty
parameters and the invalid-JSON error are recorded. -/
theorem gen_sql_parsefail (cfg : AgentConfig) (O : Oracles) (raw : List Char)
    (s : QAState) (hp : parse_json O.loads raw = none) :
    gen_sql cfg O raw s =
      some { addTrace s (lc "llm_raw") [(lc "raw", .str raw)] with
               decision := some (lc "sql"), sql := some [],
               sql_params := some (.obj []),
               last_error := some (lc "Invalid JSON: " ++ O.loadsErr raw) } := by
  unfold gen_sql
  rw [hp]
  rfl

/-! Claim theorems C1, C4: validation and row limiting. -/

/-- C1: for every model response of type `"sql"` whose sql text, stripped of
surrounding whitespace and trailing semicolons, does not begin (lowercased)
with `select`, `gen_sql` stores an empty query and the validation error
`"Only SELECT allowed."` in `last_error`, and `exec_sql` performs no database
execution in that cycle (its database call counter is unchanged, and it never
consults the database oracle). -/
theorem c1_nonselect_never_executes (cfg : AgentConfig) (O : Oracles)
    (raw : List Char) (s : QAState) (fields : List (List Char × Json))
    (s0 : List Char) (di : Nat)
    (hp : parse_json O.loads raw = some (.obj fields))
    (ht : jGet fields (lc "type") = some (.str (lc "sql")))
    (hs : (jGet fields (lc "sql")).getD (.str []) = .str s0)
    (hns : (lc "select").isPrefixOf (lowerL (pyRstripSemi (pyStrip s0))) = false) :
    ∃ s', gen_sql cfg O raw s = some s' ∧ s'.sql = some [] ∧
      s'.last_error = some (lc "Only SELECT allowed.") ∧
      (exec_sql O di s').2 = di := by
  have ht' : ∀ t, jGet fields (lc "type") = some (.str t) → t ≠ lc "clarify" := by
    intro t htt
    rw [ht] at htt
    cases htt
    decide
  exact ⟨_, (gen_sql_eq_branch cfg O raw s fields hp ht').trans
      (gen_sql_branch_reject cfg fields _ s0 hs hns), rfl, rfl, rfl⟩

/-- Shared witness scaffolding: an oracle family with the concrete JSON
parser and adjustable model/database behavior. -/
def oracleW (llmf : Nat → List Char → List Char)
    (dbf : Nat → List Char → Json → ExecResult) : Oracles :=
  { schemaText := lc "CREATE TABLE t(a);", loads := jsonLoads,
    loadsErr := fun _ => lc "Expecting value: line 1 column 1 (char 0)",
    llm := llmf, db := dbf }

/-- Default configuration used by witnesses. -/
def cfgW : AgentConfig := {}

/-- Witness oracle with a fixed model response and a failing database. -/
def c1O : Oracles := oracleW (fun _ _ => []) (fun _ _ _ => .err (lc "e"))

/-- Raw model response used by the C1 witness. -/
def c1Raw : List Char := lc "\x7b\"type\": \"sql\", \"sql\": \"DROP TABLE t\"\x7d"

/-- Parsed fields of the C1 witness response. -/
def c1Fields : List (List Char × Json) :=
  [(lc "type", .str (lc "sql")), (lc "sql", .str (lc "DROP TABLE t"))]

/-- Witness for C1 at the concrete response `DROP TABLE t`. -/
theorem c1_witness :
    parse_json c1O.loads c1Raw = some (.obj c1Fields) ∧
    jGet c1Fields (lc "type") = some (.str (lc "sql")) ∧
    (jGet c1Fields (lc "sql")).getD (.str []) = .str (lc "DROP TABLE t") ∧
    (lc "select").isPrefixOf (lowerL (pyRstripSemi (pyStrip (lc "DROP TABLE t")))) = false ∧
    (∃ s', gen_sql cfgW c1O c1Raw (initState (lc "q")) = some s' ∧ s'.sql = some [] ∧
      s'.last_error = some (lc "Only SELECT allowed.") ∧ (exec_sql c1O 0 s').2 = 0) :=
  ⟨rfl, rfl, rfl, rfl,
    c1_nonselect_never_executes cfgW c1O c1Raw (initState (lc "q")) c1Fields
      (lc "DROP TABLE t") 0 rfl rfl rfl rfl⟩

/-- C4: for every model response of type `"sql"` whose stripped sql text
passes SELECT validation, the stored query is the stripped input with a
`" LIMIT <max_rows>"` clause appended when no (case-insensitively matched)
limit clause is present, and is stored unchanged when one is present. -/
theorem c4_limit_appended (cfg : AgentConfig) (O : Oracles) (raw : List Char)
    (s : QAState) (fields : List (List Char × Json)) (s0 : List Char)
    (hp : parse_json O.loads raw = some (.obj fields))
    (ht : jGet fields (lc "type") = some (.str (lc "sql")))
    (hs : (jGet fields (lc "sql")).getD (.str []) = .str s0)
    (hsel : (lc "select").isPrefixOf (lowerL (pyRstripSemi (pyStrip s0))) = true) :
    ∃ s', gen_sql cfg O raw s = some s' ∧
      (containsSeq (lowerL (pyRstripSemi (pyStrip s0))) (lc " limit ") = false →
        s'.sql = some (pyRstripSemi (pyStrip s0) ++ lc " LIMIT " ++ natLex cfg.max_rows)) ∧
      (containsSeq (lowerL (pyRstripSemi (pyStrip s0))) (lc " limit ") = true →
        s'.sql = some (pyRstripSemi (pyStrip s0))) := by
  have ht' : ∀ t, jGet fields (lc "type") = some (.str t) → t ≠ lc "clarify" := by
    intro t htt
    rw [ht] at htt
    cases htt
    decide
  refine ⟨_, (gen_sql_eq_branch cfg O raw s fields hp ht').trans
      (gen_sql_branch_store cfg fields _ s0 hs hsel), ?_, ?_⟩
  · intro hnl
    show some (limitedSql cfg (pyRstripSemi (pyStrip s0))) = _
    unfold limitedSql
    rw [hnl]
    rfl
  · intro hl
    show some (limitedSql cfg (pyRstripSemi (pyStrip s0))) = _
    unfold limitedSql
    rw [hl]
    rfl

/-- Raw model response used by the C4 witness. -/
def c4Raw : List Char := lc "\x7b\"type\": \"sql\", \"sql\": \" SELECT a FROM t; \"\x7d"

/-- Parsed fields of the C4 witness response. -/
def c4Fields : List (List Char × Json) :=
  [(lc "type", .str (lc "sql")), (lc "sql", .str (lc " SELECT a FROM t; "))]

/-- Witness for C4: the stored query is `SELECT a FROM t LIMIT 50`. -/
theorem c4_witness :
    parse_json c1O.loads c4Raw = some (.obj c4Fields) ∧
    jGet c4Fields (lc "type") = some (.str (lc "sql")) ∧
    (jGet c4Fields (lc "sql")).getD (.str []) = .str (lc " SELECT a FROM t; ") ∧
    (lc "select").isPrefixOf (lowerL (pyRstripSemi (pyStrip (lc " SELECT a FROM t; ")))) = true ∧
    (∃ s', gen_sql cfgW c1O c4Raw (initState (lc "q")) = some s' ∧
      (containsSeq (lowerL (pyRstripSemi (pyStrip (lc " SELECT a FROM t; "))))
          (lc " limit ") = false →
        s'.sql = some (pyRstripSemi (pyStrip (lc " SELECT a FROM t; ")) ++
          lc " LIMIT " ++ natLex cfgW.max_rows)) ∧
      (containsSeq (lowerL (pyRstripSemi (pyStrip (lc " SELECT a FROM t; "))))
          (lc " limit ") = true →
        s'.sql = some (pyRstripSemi (pyStrip (lc " SELECT a FROM t; "))))) :=
  ⟨rfl, rfl, rfl, rfl,
    c4_limit_appended cfgW c1O c4Raw (initState (lc "q")) c4Fields
      (lc " SELECT a FROM t; ") rfl rfl rfl rfl⟩

/-! Claim theorems C6, C9, C10: the answer node and the execute node's
no-query branch. -/

/-- C6: when the `answer` node runs on a state whose decision is not clarify
and whose `last_error` is a non-empty string, the answer is exactly the
deterministic template quoting the error, the only state changes are the
stored answer and its trace event, and the model call counter is unchanged
(the injected model function is not invoked on this path). -/
theorem c6_error_template (O : Oracles) (li : Nat) (s : QAState) (e : List Char)
    (hd : s.decision ≠ some (lc "clarify")) (he : s.last_error = some e)
    (hne : e ≠ []) :
    answer O li s =
      (addTrace { s with answer := some (.str (errAnswer e)) } (lc "answer")
        [(lc "answer", .str (errAnswer e))], li) ∧
    errAnswer e = lc "Couldn\x27t run a valid SQL query.\nError: " ++ e ++
      lc "\nTry rephrasing or adding missing details." := by
  refine ⟨?_, rfl⟩
  unfold answer
  rw [if_neg hd, he]
  rw [if_pos (by simp [hne])]
  rfl

/-- State used by the C6 and C10 witnesses: a failed first cycle. -/
def c6State : QAState :=
  { (initState (lc "q")) with
      decision := some (lc "sql"),
      sql := some [],
      last_error := some (lc "no such table: zz") }

/-- Witness for C6 at a concrete failed state. -/
theorem c6_witness :
    c6State.decision ≠ some (lc "clarify") ∧
    c6State.last_error = some (lc "no such table: zz") ∧
    lc "no such table: zz" ≠ [] ∧
    (answer c1O 3 c6State =
      (addTrace { c6State with
          answer := some (.str (errAnswer (lc "no such table: zz"))) } (lc "answer")
        [(lc "answer", .str (errAnswer (lc "no such table: zz")))], 3) ∧
     errAnswer (lc "no such table: zz") =
       lc "Couldn\x27t run a valid SQL query.\nError: " ++ lc "no such table: zz" ++
         lc "\nTry rephrasing or adding missing details.") :=
  ⟨by decide, rfl, by decide,
    c6_error_template c1O 3 c6State (lc "no such table: zz") (by decide) rfl (by decide)⟩

/-- C9: in the `answer` node the clarify branch has priority over the error
branch — whenever `decision = "clarify"`, the answer is the stored
clarification question (default `"Can you clarify?"`), whatever `last_error`
holds, with the model not invoked; and `exec_sql` on a state with no query
and an unset/empty `last_error` (the clarify-on-first-cycle situation)
records `"No SQL produced."`. -/
theorem c9_clarify_priority (O : Oracles) (li di : Nat) (s : QAState)
    (hd : s.decision = some (lc "clarify")) :
    answer O li s =
      (addTrace { s with
          answer := some (s.clarification_question.getD (.str (lc "Can you clarify?"))) }
        (lc "answer")
        [(lc "answer", s.clarification_question.getD (.str (lc "Can you clarify?")))],
       li) ∧
    (∀ s2 : QAState, s2.sql.getD [] = [] → s2.last_error.getD [] = [] →
      (exec_sql O di s2).1.last_error = some (lc "No SQL produced.")) := by
  constructor
  · unfold answer
    rw [if_pos hd]
  · intro s2 h1 h2
    unfold exec_sql
    rw [if_pos h1]
    dsimp only
    cases hle : s2.last_error with
    | none => simp [pyOrS]
    | some v =>
      rw [hle] at h2
      simp only [Option.getD_some] at h2
      simp [pyOrS, h2]

/-- State used by the C9 witness: clarify decision with a non-empty error. -/
def c9State : QAState :=
  { (initState (lc "q")) with
      decision := some (lc "clarify"),
      clarification_question := some (.str (lc "Which?")),
      last_error := some (lc "No SQL produced.") }

/-- Witness for C9: the clarification text wins over the non-empty error. -/
theorem c9_witness :
    c9State.decision = some (lc "clarify") ∧
    (answer c1O 1 c9State =
      (addTrace { c9State with
          answer := some (c9State.clarification_question.getD (.str (lc "Can you clarify?"))) }
        (lc "answer")
        [(lc "answer", c9State.clarification_question.getD (.str (lc "Can you clarify?")))],
       1) ∧
     (∀ s2 : QAState, s2.sql.getD [] = [] → s2.last_error.getD [] = [] →
       (exec_sql c1O 0 s2).1.last_error = some (lc "No SQL produced."))) :=
  ⟨rfl, c9_clarify_priority c1O 1 0 c9State rfl⟩

/-- C10: `exec_sql` on a state with an empty query and a non-empty
`last_error` is the identity on the state (the earlier failure text is kept,
nothing else changes) and does not touch the database; the fallback
`"No SQL produced."` is written only when `last_error` is empty or unset,
and then nothing else changes either. -/
theorem c10_exec_frame (O : Oracles) (di : Nat) (s : QAState) (e : List Char)
    (h1 : s.sql.getD [] = []) (h2 : s.last_error = some e) (h3 : e ≠ []) :
    exec_sql O di s = (s, di) ∧
    (∀ s2 : QAState, s2.sql.getD [] = [] → s2.last_error.getD [] = [] →
      exec_sql O di s2 = ({ s2 with last_error := some (lc "No SQL produced.") }, di)) := by
  constructor
  · unfold exec_sql
    rw [if_pos h1, h2]
    simp only [pyOrS, if_neg h3]
    rw [← h2]
  · intro s2 h1' h2'
    unfold exec_sql
    rw [if_pos h1']
    cases hle : s2.last_error with
    | none => simp [pyOrS]
    | some v =>
      rw [hle] at h2'
      simp only [Option.getD_some] at h2'
      simp [pyOrS, h2']

/-- Witness for C10 at a concrete post-rejection state. -/
theorem c10_witness :
    c6State.sql.getD [] = [] ∧
    c6State.last_error = some (lc "no such table: zz") ∧
    lc "no such table: zz" ≠ [] ∧
    (exec_sql c1O 5 c6State = (c6State, 5) ∧
     (∀ s2 : QAState, s2.sql.getD [] = [] → s2.last_error.getD [] = [] →
       exec_sql c1O 5 s2 = ({ s2 with last_error := some (lc "No SQL produced.") }, 5))) :=
  ⟨rfl, rfl, by decide,
    c10_exec_frame c1O 5 c6State (lc "no such table: zz") rfl rfl (by decide)⟩

/-! Claim C5: the repair prompt quotes the recorded error verbatim. -/

/-- Dropping a satisfying prefix stops at the first failing element, so a
list headed by a failing element is left unchanged. -/
theorem dropWhile_eq_self (p : Char → Bool) (l : List Char)
    (h : ∃ c t, l = c :: t ∧ p c = false) : l.dropWhile p = l := by
  obtain ⟨c, t, rfl, hc⟩ := h
  exact List.dropWhile_cons_of_neg (by simp [hc])

/-- `dropWhile` over an append whose right part is headed by a failing
element strips only inside the left part. -/
theorem dropWhile_append_mid (p : Char → Bool) (pre m : List Char)
    (h : ∃ c t, m = c :: t ∧ p c = false) :
    (pre ++ m).dropWhile p = pre.dropWhile p ++ m := by
  induction pre with
  | nil => simpa using dropWhile_eq_self p m h
  | cons a pre ih =>
    cases hpa : p a with
    | true =>
      rw [List.cons_append, List.dropWhile_cons_of_pos (by simp [hpa]),
        List.dropWhile_cons_of_pos (by simp [hpa]), ih]
    | false =>
      rw [List.cons_append, List.dropWhile_cons_of_neg (by simp [hpa]),
        List.dropWhile_cons_of_neg (by simp [hpa]), List.cons_append]

/-- Stripping surrounding whitespace from `pre ++ (m ++ suf)` where `m`
begins and ends with non-whitespace touches only `pre` and `suf`. -/
theorem pyStrip_of_mid (pre m suf : List Char)
    (h1 : ∃ c t, m = c :: t ∧ pyWs c = false)
    (h2 : ∃ c t, m.reverse = c :: t ∧ pyWs c = false) :
    pyStrip (pre ++ (m ++ suf)) =
      pre.dropWhile pyWs ++ (m ++ (suf.reverse.dropWhile pyWs).reverse) := by
  obtain ⟨c1, t1, hm1, hc1⟩ := h1
  obtain ⟨c2, t2, hm2, hc2⟩ := h2
  unfold pyStrip
  rw [dropWhile_append_mid pyWs pre (m ++ suf)
    ⟨c1, t1 ++ suf, by rw [hm1]; rfl, hc1⟩]
  rw [List.reverse_append, List.reverse_append, List.append_assoc]
  rw [dropWhile_append_mid pyWs suf.reverse (m.reverse ++ (pre.dropWhile pyWs).reverse)
    ⟨c2, t2 ++ (pre.dropWhile pyWs).reverse, by rw [hm2]; rfl, hc2⟩]
  rw [List.reverse_append, List.reverse_append, List.reverse_reverse,
    List.reverse_reverse, List.append_assoc]

/-- Stripping surrounding whitespace from `pre ++ (m ++ suf)` where `pre`
and `suf` are all whitespace and `m` begins and ends with non-whitespace
yields exactly `m`. -/
theorem pyStrip_ws_ends (pre m suf : List Char)
    (hpre : pre.dropWhile pyWs = []) (hsuf : suf.reverse.dropWhile pyWs = [])
    (h1 : ∃ c t, m = c :: t ∧ pyWs c = false)
    (h2 : ∃ c t, m.reverse = c :: t ∧ pyWs c = false) :
    pyStrip (pre ++ (m ++ suf)) = m := by
  rw [pyStrip_of_mid pre m suf h1 h2, hpre, hsuf]
  simp

/-- The generation-prompt header stripped of its leading newline. -/
def sqlPromptHeadTail : List Char :=
  lc "You are a careful data assistant. Convert the user question into a single SQL SELECT query.\nRules:\n- Use ONLY tables/columns in the schema. Prefer explicit JOINs.\n- If the question is ambiguous, ask for clarification instead of guessing.\n- Return STRICT JSON only (no markdown):\n  \x7b\"type\":\"sql\",\"sql\":\"...\",\"params\":\x7b\x7d\x7d  or  \x7b\"type\":\"clarify\",\"question\":\"...\"\x7d\nSchema:\n"

/-- Closed form of the generation prompt when a repair section is present:
stripping removes exactly the leading newline and the two trailing ones. -/
theorem sql_prompt_repair_closed (q sch e : List Char) (he : e ≠ []) :
    _sql_prompt q sch e =
      sqlPromptHeadTail ++ (sch ++ (lc "\nUser question: " ++ (q ++
        (lc "\nPrevious SQL failed: " ++ (e ++ lc "\nFix it."))))) := by
  unfold _sql_prompt sqlRepair
  rw [if_neg he]
  have hbody : sqlPromptHeader ++ sch ++ lc "\nUser question: " ++ q ++
      (lc "\nPrevious SQL failed: " ++ e ++ lc "\nFix it.\n") ++ lc "\n" =
      lc "\n" ++ ((sqlPromptHeadTail ++ (sch ++ (lc "\nUser question: " ++ (q ++
        (lc "\nPrevious SQL failed: " ++ (e ++ lc "\nFix it.")))))) ++ lc "\n\n") := by
    rw [show sqlPromptHeader = '\n' :: sqlPromptHeadTail from rfl]
    simp only [List.append_assoc, List.cons_append, List.nil_append]
    rw [show (lc "\nFix it.\n" ++ lc "\n" : List Char) = lc "\nFix it." ++ lc "\n\n" from rfl]
    rfl
  rw [hbody]
  exact pyStrip_ws_ends (lc "\n") _ (lc "\n\n") rfl rfl
    ⟨'Y', _, rfl, by decide⟩
    ⟨'.', _, by simp only [List.reverse_append, List.append_assoc]; rfl, by decide⟩

/-- The generation prompt as the specification describes it for the no-error
case: the same template with no repair section at all.  Defined from the
specification's words for comparison with `_sql_prompt` on an empty error. -/
def _sql_promptNoRepair (question schema : List Char) : List Char :=
  pyStrip (sqlPromptHeader ++ schema ++ lc "\nUser question: " ++ question ++ lc "\n")

/-- C5: a non-empty `last_error` appears verbatim (as a contiguous substring)
in the generation prompt built from it; an empty `last_error` produces the
prompt with no repair section; and hence the prompt of the generation cycle
that follows a failure whose text was recorded in `last_error` contains that
text character for character. -/
theorem c5_prompt_contains_error (q sch e : List Char) (s : QAState) :
    (e ≠ [] → e <:+: _sql_prompt q sch e) ∧
    _sql_prompt q sch [] = _sql_promptNoRepair q sch ∧
    (s.last_error = some e → e ≠ [] → e <:+: genPrompt (inc_attempts s)) := by
  have hinf : ∀ q' sch' : List Char, e ≠ [] → e <:+: _sql_prompt q' sch' e := by
    intro q' sch' he
    rw [sql_prompt_repair_closed q' sch' e he]
    refine ⟨sqlPromptHeadTail ++ (sch' ++ (lc "\nUser question: " ++ (q' ++
      lc "\nPrevious SQL failed: "))), lc "\nFix it.", ?_⟩
    simp [List.append_assoc]
  refine ⟨hinf q sch, ?_, fun hle he => ?_⟩
  · unfold _sql_prompt sqlRepair _sql_promptNoRepair
    rw [if_pos rfl]
    simp only [List.append_nil]
  · have hgp : genPrompt (inc_attempts s) =
        _sql_prompt s.question (s.schema.getD []) e := by
      unfold genPrompt
      rw [show (inc_attempts s).last_error = s.last_error from rfl, hle]
      rfl
    rw [hgp]
    exact hinf s.question (s.schema.getD []) he

/-- Witness for C5 at the concrete error `"No SQL produced."` and the
concrete state `c9State` that records it. -/
theorem c5_witness :
    lc "No SQL produced." ≠ [] ∧
    c9State.last_error = some (lc "No SQL produced.") ∧
    lc "No SQL produced." <:+: _sql_prompt (lc "q") (lc "CREATE TABLE t(a);")
      (lc "No SQL produced.") ∧
    _sql_prompt (lc "q") (lc "CREATE TABLE t(a);") [] =
      _sql_promptNoRepair (lc "q") (lc "CREATE TABLE t(a);") ∧
    lc "No SQL produced." <:+: genPrompt (inc_attempts c9State) :=
  ⟨by decide, rfl,
   (c5_prompt_contains_error (lc "q") (lc "CREATE TABLE t(a);")
     (lc "No SQL produced.") c9State).1 (by decide),
   (c5_prompt_contains_error (lc "q") (lc "CREATE TABLE t(a);")
     (lc "No SQL produced.") c9State).2.1,
   (c5_prompt_contains_error (lc "q") (lc "CREATE TABLE t(a);")
     (lc "No SQL produced.") c9State).2.2 rfl (by decide)⟩

/-! Claim C7: prose-tolerant parsing in `_parse_json`. -/

/-- First-occurrence search over an append whose left part avoids the
character and whose right part starts with it. -/
theorem pyFindAux_append (c : Char) (A B : List Char)
    (hA : ∀ x ∈ A, x ≠ c) (hB : ∃ t, B = c :: t) :
    pyFindAux c (A ++ B) = some A.length := by
  induction A with
  | nil =>
    obtain ⟨t, rfl⟩ := hB
    simp [pyFindAux]
  | cons a A ih =>
    have ha : a ≠ c := hA a (by simp)
    rw [List.cons_append]
    unfold pyFindAux
    rw [if_neg (by simp [ha])]
    rw [ih (fun x hx => hA x (by simp [hx]))]
    rfl

/-- A list whose head is `'{'` has length at least one and, if it also
reversed-starts with `'}'`, at least two. -/
theorem brace_len (j : List Char) (hj1 : ∃ t, j = '{' :: t)
    (hj2 : ∃ t, j.reverse = '}' :: t) : 2 ≤ j.length := by
  obtain ⟨t, rfl⟩ := hj1
  obtain ⟨t2, hr⟩ := hj2
  cases t with
  | nil => simp at hr
  | cons b t => simp

/-- The stripped text stays unchanged when it begins and ends with
non-whitespace. -/
theorem pyStrip_eq_self (j : List Char)
    (h1 : ∃ c t, j = c :: t ∧ pyWs c = false)
    (h2 : ∃ c t, j.reverse = c :: t ∧ pyWs c = false) :
    pyStrip j = j := by
  unfold pyStrip
  rw [dropWhile_eq_self pyWs j h1, dropWhile_eq_self pyWs j.reverse h2,
    List.reverse_reverse]

/-- C7 (amended): over any library parser, (a) for a text `j` in JSON-object
normal form (begins `'{'`, ends `'}'`) that `loads` parses, a prefix with no
opening brace and a suffix with no closing brace, if the wrapped text does
not itself parse directly after stripping then `_parse_json` recovers from
the wrapped text exactly the object parsed from the bare `j`; and (b) any
input whose stripped form does not parse directly and whose
first-opening-brace–to–last-closing-brace span is absent, ill-ordered, or
itself unparseable, makes `_parse_json` fail. -/
theorem c7_parse_json_wrapped (loads : List Char → Option Json) :
    (∀ pre j suf v, (∀ c ∈ pre, c ≠ '{') → (∀ c ∈ suf, c ≠ '}') →
      (∃ t, j = '{' :: t) → (∃ t, j.reverse = '}' :: t) →
      loads j = some v → loads (pyStrip (pre ++ (j ++ suf))) = none →
      parse_json loads (pre ++ (j ++ suf)) = some v ∧
        parse_json loads j = some v) ∧
    (∀ t, loads (pyStrip t) = none →
      (∀ st en, pyFind (pyStrip t) '{' = some st →
        pyRfind (pyStrip t) '}' = some en → st < en →
        loads (((pyStrip t).drop st).take (en + 1 - st)) = none) →
      parse_json loads t = none) := by
  constructor
  · intro pre j suf v hpre hsuf hj1 hj2 hload hdirect
    obtain ⟨jt, hjt⟩ := hj1
    obtain ⟨jrt, hjrt⟩ := hj2
    have hj1' : ∃ c t, j = c :: t ∧ pyWs c = false := ⟨'{', jt, hjt, by decide⟩
    have hj2' : ∃ c t, j.reverse = c :: t ∧ pyWs c = false := ⟨'}', jrt, hjrt, by decide⟩
    have hlenj : 2 ≤ j.length := brace_len j ⟨jt, hjt⟩ ⟨jrt, hjrt⟩
    constructor
    · have hstrip : pyStrip (pre ++ (j ++ suf)) =
          pre.dropWhile pyWs ++ (j ++ (suf.reverse.dropWhile pyWs).reverse) :=
        pyStrip_of_mid pre j suf hj1' hj2'
      have hpre' : ∀ c ∈ pre.dropWhile pyWs, c ≠ '{' :=
        fun c hc => hpre c ((List.dropWhile_sublist pyWs).mem hc)
      have hsuf' : ∀ c ∈ (suf.reverse.dropWhile pyWs).reverse, c ≠ '}' := by
        intro c hc
        exact hsuf c (List.mem_reverse.mp
          ((List.dropWhile_sublist pyWs).mem (List.mem_reverse.mp hc)))
      have hfind : pyFind (pre.dropWhile pyWs ++
          (j ++ (suf.reverse.dropWhile pyWs).reverse)) '{' =
          some (pre.dropWhile pyWs).length := by
        unfold pyFind
        exact pyFindAux_append '{' _ _ hpre'
          ⟨jt ++ (suf.reverse.dropWhile pyWs).reverse, by rw [hjt]; rfl⟩
      have hrfind : pyRfind (pre.dropWhile pyWs ++
          (j ++ (suf.reverse.dropWhile pyWs).reverse)) '}' =
          some ((pre.dropWhile pyWs).length + j.length - 1) := by
        unfold pyRfind
        rw [show (pre.dropWhile pyWs ++
            (j ++ (suf.reverse.dropWhile pyWs).reverse)).reverse =
            (suf.reverse.dropWhile pyWs).reverse.reverse ++
              (j.reverse ++ (pre.dropWhile pyWs).reverse) by
          rw [List.reverse_append, List.reverse_append, List.append_assoc]]
        rw [pyFindAux_append '}' _ _
          (fun c hc => hsuf' c (List.mem_reverse.mp hc))
          ⟨jrt ++ (pre.dropWhile pyWs).reverse, by rw [hjrt]; rfl⟩]
        simp only [Option.map_some', List.length_append, List.length_reverse]
        congr 1
        omega
      unfold parse_json
      rw [hdirect]
      dsimp only
      rw [hstrip, hfind, hrfind]
      dsimp only
      rw [if_pos (by omega)]
      rw [List.drop_left]
      rw [show (pre.dropWhile pyWs).length + j.length - 1 + 1 -
        (pre.dropWhile pyWs).length = j.length from by omega]
      rw [List.take_left]
      exact hload
    · unfold parse_json
      rw [pyStrip_eq_self j hj1' hj2', hload]
  · intro t hdirect hspan
    unfold parse_json
    rw [hdirect]
    dsimp only
    cases hf : pyFind (pyStrip t) '{' with
    | none => rfl
    | some st =>
      cases hr : pyRfind (pyStrip t) '}' with
      | none => rfl
      | some en =>
        dsimp only
        by_cases hlt : st < en
        · rw [if_pos hlt]
          exact hspan st en hf hr hlt
        · rw [if_neg hlt]

/-- Counterexample to C7 as stated: with prefix `"["` (no opening brace) and
suffix `"]"` (no closing brace) around the object text `"\x7b\x7d"`, the
concatenation `"[\x7b\x7d]"` is itself valid JSON, so the direct parse
succeeds and `_parse_json` returns the wrapping array — not the same
structured object as parsing the bare `"\x7b\x7d"`. -/
theorem c7_counterexample :
    parse_json jsonLoads (lc "[\x7b\x7d]") = some (.arr [.obj []]) ∧
    parse_json jsonLoads (lc "\x7b\x7d") = some (.obj []) ∧
    Json.arr [.obj []] ≠ Json.obj [] :=
  ⟨rfl, rfl, fun h => Json.noConfusion h⟩

/-- Text of the C7 witness: an object wrapped in prose. -/
def c7Wrapped : List Char := lc "Sure! " ++ (lc "\x7b\"a\": 1\x7d" ++ lc " done.")

/-- Witness for C7 at `"Sure! \x7b...\x7d done."` (part (a)) and at
`"not json at all"` (part (b)). -/
theorem c7_witness :
    (∀ c ∈ lc "Sure! ", c ≠ '{') ∧ (∀ c ∈ lc " done.", c ≠ '}') ∧
    jsonLoads (lc "\x7b\"a\": 1\x7d") = some (.obj [(lc "a", .num (lc "1"))]) ∧
    jsonLoads (pyStrip c7Wrapped) = none ∧
    (parse_json jsonLoads c7Wrapped = some (.obj [(lc "a", .num (lc "1"))]) ∧
      parse_json jsonLoads (lc "\x7b\"a\": 1\x7d") = some (.obj [(lc "a", .num (lc "1"))])) ∧
    jsonLoads (pyStrip (lc "not json at all")) = none ∧
    parse_json jsonLoads (lc "not json at all") = none :=
  ⟨by decide, by decide, rfl, rfl,
   (c7_parse_json_wrapped jsonLoads).1 (lc "Sure! ") (lc "\x7b\"a\": 1\x7d")
     (lc " done.") (.obj [(lc "a", .num (lc "1"))])
     (by decide) (by decide) ⟨_, rfl⟩ ⟨_, rfl⟩ rfl rfl,
   rfl,
   (c7_parse_json_wrapped jsonLoads).2 (lc "not json at all") rfl
     (fun st en h1 _ _ => by
       rw [show pyFind (pyStrip (lc "not json at all")) '{' = none from rfl] at h1
       exact Option.noConfusion h1)⟩

/-! Claim C2: the retry loop is bounded by `max_attempts`. -/

/-- `gen_sql` never changes the attempt counter. -/
theorem gen_sql_attempts (cfg : AgentConfig) (O : Oracles) (raw : List Char)
    (s s' : QAState) (h : gen_sql cfg O raw s = some s') :
    s'.attempts = s.attempts := by
  rcases gen_sql_shape cfg O raw s s' h with h' | ⟨q, h'⟩ | h' | ⟨q, ps, _, h'⟩ <;>
    subst h' <;> rfl

/-- `exec_sql` never changes the attempt counter. -/
theorem exec_sql_attempts (O : Oracles) (di : Nat) (s : QAState) :
    ((exec_sql O di s).1).attempts = s.attempts := by
  unfold exec_sql
  split
  · rfl
  · split <;> rfl

/-- The `answer` node never changes the attempt counter. -/
theorem answer_attempts (O : Oracles) (li : Nat) (s : QAState) :
    ((answer O li s).1).attempts = s.attempts := by
  unfold answer
  split
  · rfl
  · split <;> rfl

/-- A positive retry decision implies the attempt counter is still below the
configured maximum. -/
theorem should_retry_lt (cfg : AgentConfig) (s : QAState)
    (h : should_retry cfg s = true) : s.attempts.getD 0 < cfg.max_attempts := by
  unfold should_retry at h
  simp only [Bool.and_eq_true, decide_eq_true_eq] at h
  exact h.2

/-- With enough fuel relative to the current attempt count, the loop model
never exhausts its fuel: the retry predicate stops it first. -/
theorem runLoop_no_fuelOut (cfg : AgentConfig) (O : Oracles) :
    ∀ (f li di : Nat) (log : List (List Char)) (s : QAState) (j : Nat),
      s.attempts = some j → cfg.max_attempts + 1 ≤ f + j → j ≤ cfg.max_attempts →
      runLoop cfg O f li di log s ≠ .error .fuelOut := by
  intro f
  induction f with
  | zero =>
    intro li di log s j hj h1 h2
    intro _
    omega
  | succ f ih =>
    intro li di log s j hj h1 h2
    unfold runLoop
    cases hg : gen_sql cfg O (O.llm li (genPrompt (inc_attempts s))) (inc_attempts s) with
    | none =>
      intro hc
      exact RunStop.noConfusion (Except.error.inj hc)
    | some s1 =>
      dsimp only
      have hs1a : s1.attempts = some (j + 1) := by
        rw [gen_sql_attempts cfg O _ _ s1 hg]
        show some (s.attempts.getD 0 + 1) = _
        rw [hj]
        rfl
      have hea : ((exec_sql O di s1).1).attempts = some (j + 1) := by
        rw [exec_sql_attempts O di s1, hs1a]
      by_cases hsr : should_retry cfg (exec_sql O di s1).1 = true
      · rw [if_pos hsr]
        have hlt : j + 1 < cfg.max_attempts := by
          have hh := should_retry_lt cfg _ hsr
          rw [hea] at hh
          simpa using hh
        exact ih (li + 1) (exec_sql O di s1).2
          (log ++ [genPrompt (inc_attempts s)]) (exec_sql O di s1).1 (j + 1)
          hea (by omega) (by omega)
      · rw [if_neg hsr]
        intro hc
        exact Except.noConfusion hc

/-- Every completed loop run from attempt count `j` performed `c ≥ 1` further
cycles (one prompt each), left the final attempt count at `j + c`, and unless
it stopped after its very first cycle, `j + c` is at most `max_attempts`. -/
theorem runLoop_count (cfg : AgentConfig) (O : Oracles) :
    ∀ (f li di : Nat) (log : List (List Char)) (s : QAState) (j : Nat) (r : RunOut),
      s.attempts = some j → runLoop cfg O f li di log s = .ok r →
      ∃ c, 1 ≤ c ∧ r.prompts.length = log.length + c ∧
        r.state.attempts = some (j + c) ∧ (c = 1 ∨ j + c ≤ cfg.max_attempts) := by
  intro f
  induction f with
  | zero =>
    intro li di log s j r hj hr
    exact absurd hr (by simp [runLoop])
  | succ f ih =>
    intro li di log s j r hj hr
    unfold runLoop at hr
    cases hg : gen_sql cfg O (O.llm li (genPrompt (inc_attempts s))) (inc_attempts s) with
    | none =>
      rw [hg] at hr
      exact absurd hr (by simp)
    | some s1 =>
      rw [hg] at hr
      dsimp only at hr
      have hs1a : s1.attempts = some (j + 1) := by
        rw [gen_sql_attempts cfg O _ _ s1 hg]
        show some (s.attempts.getD 0 + 1) = _
        rw [hj]
        rfl
      have hea : ((exec_sql O di s1).1).attempts = some (j + 1) := by
        rw [exec_sql_attempts O di s1, hs1a]
      by_cases hsr : should_retry cfg (exec_sql O di s1).1 = true
      · rw [if_pos hsr] at hr
        obtain ⟨c, hc1, hc2, hc3, hc4⟩ := ih _ _ _ _ (j + 1) r hea hr
        have hlt : j + 1 < cfg.max_attempts := by
          have hh := should_retry_lt cfg _ hsr
          rw [hea] at hh
          simpa using hh
        refine ⟨c + 1, by omega, ?_, ?_, ?_⟩
        · rw [hc2]
          simp
          omega
        · rw [hc3]
          congr 1
          omega
        · right
          rcases hc4 with h | h <;> omega
      · rw [if_neg hsr] at hr
        have hre := (Except.ok.inj hr)
        refine ⟨1, le_refl 1, ?_, ?_, Or.inl rfl⟩
        · rw [← hre]
          simp
        · rw [← hre]
          show ((answer O (li + 1) (exec_sql O di s1).1).1).attempts = _
          rw [answer_attempts, hea]

/-- C2: with `max_attempts ≥ 1` and a fresh session (attempts start at 0),
the run never exhausts the loop model's fuel (the retry predicate terminates
it first), and every completed run performed at most `max_attempts`
generate/execute cycles (one generation prompt each), with the final attempt
counter equal to the cycle count and hence at most `max_attempts` — for
every model-response and execution-outcome oracle. -/
theorem c2_attempts_bounded (cfg : AgentConfig) (O : Oracles) (q : List Char)
    (hmax : 1 ≤ cfg.max_attempts) :
    run_question cfg O q ≠ .error .fuelOut ∧
    ∀ r, run_question cfg O q = .ok r →
      r.state.attempts = some r.prompts.length ∧
      r.prompts.length ≤ cfg.max_attempts := by
  have hinit : (load_schema O (initState q)).attempts = some 0 := rfl
  constructor
  · exact runLoop_no_fuelOut cfg O (cfg.max_attempts + 1) 0 0 [] _ 0 hinit
      (by omega) (by omega)
  · intro r hr
    obtain ⟨c, hc1, hc2, hc3, hc4⟩ :=
      runLoop_count cfg O (cfg.max_attempts + 1) 0 0 [] _ 0 r hinit hr
    simp only [List.length_nil, Nat.zero_add] at hc2 hc3
    constructor
    · rw [hc3, hc2]
    · rw [hc2]
      rcases hc4 with h | h <;> omega

/-- Witness oracle for C2: a model that always emits the same failing query
and a database that always errors, exercising the retry bound. -/
def c2O : Oracles := oracleW
  (fun _ _ => lc "\x7b\"type\": \"sql\", \"sql\": \"SELECT a FROM zz\"\x7d")
  (fun _ _ _ => .err (lc "no such table: zz"))

/-- Witness for C2 at a concrete always-failing run. -/
theorem c2_witness :
    1 ≤ cfgW.max_attempts ∧
    (run_question cfgW c2O (lc "q") ≠ .error .fuelOut ∧
     ∀ r, run_question cfgW c2O (lc "q") = .ok r →
       r.state.attempts = some r.prompts.length ∧
       r.prompts.length ≤ cfgW.max_attempts) :=
  ⟨by decide, c2_attempts_bounded cfgW c2O (lc "q") (by decide)⟩

/-! Claim C3: clarify and query execution. -/

/-- Counterexample oracle for C3: first a valid SELECT that fails at the
database, then a clarify response; the database succeeds on its second
call. -/
def c3O : Oracles := oracleW
  (fun i _ => if i = 0 then lc "\x7b\"type\": \"sql\", \"sql\": \"SELECT a FROM t\"\x7d"
              else lc "\x7b\"type\": \"clarify\", \"question\": \"Which?\"\x7d")
  (fun i _ _ => if i = 0 then .err (lc "boom") else .ok [lc "a"] [[.num (lc "7")]])

/-- Counterexample to C3 as stated: in this two-cycle session the second
cycle's model response is clarify, yet the Execute step of that same cycle
re-executes the query stored by the first cycle — the database is consulted
twice, and the distinctive result of the second call ends up in `rows` even
though the final decision is clarify.  The clarify branch of `gen_sql` does
not clear `state["sql"]`, so `exec_sql` still sees the stale query. -/
theorem c3_counterexample :
    runDecision (run_question cfgW c3O (lc "q")) = some (some (lc "clarify")) ∧
    runDbCalls (run_question cfgW c3O (lc "q")) = some 2 ∧
    runRows (run_question cfgW c3O (lc "q")) = some (some [[Json.num (lc "7")]]) ∧
    runCycleCount (run_question cfgW c3O (lc "q")) = some 2 :=
  ⟨rfl, rfl, rfl, rfl⟩

/-- C3 (amended): when the clarify response arrives in the first generation
cycle (so no earlier cycle stored a query), no database query is ever
executed in the session, no further generation cycle occurs, the final
decision is clarify, and `columns`/`rows` remain unset in the final state. -/
theorem c3_clarify_first (cfg : AgentConfig) (O : Oracles) (q : List Char)
    (fields : List (List Char × Json))
    (hp : parse_json O.loads
        (O.llm 0 (genPrompt (inc_attempts (load_schema O (initState q))))) =
      some (.obj fields))
    (ht : jGet fields (lc "type") = some (.str (lc "clarify"))) :
    ∃ r, run_question cfg O q = .ok r ∧ r.dbCalls = 0 ∧
      r.state.decision = some (lc "clarify") ∧ r.state.columns = none ∧
      r.state.rows = none ∧ r.prompts.length = 1 := by
  have hgen := gen_sql_clarify cfg O
    (O.llm 0 (genPrompt (inc_attempts (load_schema O (initState q)))))
    (inc_attempts (load_schema O (initState q))) fields hp ht
  unfold run_question runLoop
  rw [hgen]
  dsimp only
  rw [show should_retry cfg
      (exec_sql O 0 { addTrace (inc_attempts (load_schema O (initState q)))
          (lc "llm_raw")
          [(lc "raw", .str (O.llm 0 (genPrompt (inc_attempts (load_schema O (initState q))))))] with
        decision := some (lc "clarify"),
        clarification_question :=
          some ((jGet fields (lc "question")).getD (.str (lc "Can you clarify?"))) }).1 =
      false from rfl]
  rw [if_neg Bool.false_ne_true]
  exact ⟨_, rfl, rfl, rfl, rfl, rfl, rfl⟩

/-- Witness oracle for the amended C3: clarify on the very first response. -/
def c3wO : Oracles := oracleW
  (fun _ _ => lc "\x7b\"type\": \"clarify\", \"question\": \"Which semester?\"\x7d")
  (fun _ _ _ => .err (lc "e"))

/-- Parsed fields of the amended-C3 witness response. -/
def c3wFields : List (List Char × Json) :=
  [(lc "type", .str (lc "clarify")), (lc "question", .str (lc "Which semester?"))]

/-- Witness for the amended C3 at a concrete clarify-first run. -/
theorem c3_witness :
    parse_json c3wO.loads
      (c3wO.llm 0 (genPrompt (inc_attempts (load_schema c3wO (initState (lc "q")))))) =
      some (.obj c3wFields) ∧
    jGet c3wFields (lc "type") = some (.str (lc "clarify")) ∧
    (∃ r, run_question cfgW c3wO (lc "q") = .ok r ∧ r.dbCalls = 0 ∧
      r.state.decision = some (lc "clarify") ∧ r.state.columns = none ∧
      r.state.rows = none ∧ r.prompts.length = 1) :=
  ⟨rfl, rfl, c3_clarify_first cfgW c3wO (lc "q") c3wFields rfl rfl⟩

/-! Claim C8: trace event kinds and their order. -/

/-- Node names of a state's trace, in order. -/
def nodesOf (s : QAState) : List (List Char) := s.trace.map TraceEvent.node

/-- Appending a trace event appends its node name. -/
theorem nodesOf_addTrace (s : QAState) (n : List Char)
    (d : List (List Char × Json)) : nodesOf (addTrace s n d) = nodesOf s ++ [n] := by
  simp [nodesOf, addTrace]

/-- Trace effect of `gen_sql`: one `llm_raw` event, followed by a `gen_sql`
event exactly when a validated (nonempty) query was stored. -/
theorem gen_sql_nodes (cfg : AgentConfig) (O : Oracles) (raw : List Char)
    (s s' : QAState) (h : gen_sql cfg O raw s = some s') :
    ∃ Δ, nodesOf s' = nodesOf s ++ Δ ∧
      (Δ = [lc "llm_raw"] ∨
        (Δ = [lc "llm_raw", lc "gen_sql"] ∧ ∃ qv, qv ≠ [] ∧ s'.sql = some qv)) := by
  rcases gen_sql_shape cfg O raw s s' h with h' | ⟨qc, h'⟩ | h' | ⟨qv, ps, hqv, h'⟩
  · subst h'
    exact ⟨[lc "llm_raw"], by simp [nodesOf, addTrace], Or.inl rfl⟩
  · subst h'
    exact ⟨[lc "llm_raw"], by simp [nodesOf, addTrace], Or.inl rfl⟩
  · subst h'
    exact ⟨[lc "llm_raw"], by simp [nodesOf, addTrace], Or.inl rfl⟩
  · subst h'
    exact ⟨[lc "llm_raw", lc "gen_sql"], by simp [nodesOf, addTrace],
      Or.inr ⟨rfl, qv, hqv, rfl⟩⟩

/-- Trace effect of `exec_sql` when a nonempty query is present: exactly one
execution event (success or error) is appended. -/
theorem exec_sql_nodes_pos (O : Oracles) (di : Nat) (s : QAState) (qv : List Char)
    (hq : s.sql = some qv) (hne : qv ≠ []) :
    ∃ ex, (ex = lc "exec_sql" ∨ ex = lc "exec_sql_error") ∧
      nodesOf (exec_sql O di s).1 = nodesOf s ++ [ex] := by
  unfold exec_sql
  rw [hq]
  rw [if_neg (by simpa using hne)]
  split
  · exact ⟨lc "exec_sql", Or.inl rfl, by simp [nodesOf, addTrace]⟩
  · exact ⟨lc "exec_sql_error", Or.inr rfl, by simp [nodesOf, addTrace]⟩

/-- Trace effect of `exec_sql` in general: at most one execution event. -/
theorem exec_sql_nodes_any (O : Oracles) (di : Nat) (s : QAState) :
    ∃ Δ, nodesOf (exec_sql O di s).1 = nodesOf s ++ Δ ∧
      (Δ = [] ∨ Δ = [lc "exec_sql"] ∨ Δ = [lc "exec_sql_error"]) := by
  unfold exec_sql
  split
  · exact ⟨[], by simp [nodesOf], Or.inl rfl⟩
  · split
    · exact ⟨[lc "exec_sql"], by simp [nodesOf, addTrace], Or.inr (Or.inl rfl)⟩
    · exact ⟨[lc "exec_sql_error"], by simp [nodesOf, addTrace], Or.inr (Or.inr rfl)⟩

/-- Trace effect of the `answer` node: exactly one `answer` event. -/
theorem answer_nodes (O : Oracles) (li : Nat) (s : QAState) :
    nodesOf (answer O li s).1 = nodesOf s ++ [lc "answer"] := by
  unfold answer
  split
  · simp [nodesOf, addTrace]
  · split <;> simp [nodesOf, addTrace]

/-- Trace effect of one generate/execute cycle (`attempt`, `llm_raw`, then
optional `gen_sql` and execution events): whenever a `gen_sql` event was
appended, an execution event follows it within the same cycle. -/
theorem cycle_nodes (cfg : AgentConfig) (O : Oracles) (raw : List Char)
    (di : Nat) (s s1 : QAState)
    (hg : gen_sql cfg O raw (inc_attempts s) = some s1) :
    ∃ Δ, nodesOf (exec_sql O di s1).1 = nodesOf s ++ Δ ∧
      ((lc "gen_sql") ∈ Δ → ∃ ex, (ex = lc "exec_sql" ∨ ex = lc "exec_sql_error") ∧
        [lc "gen_sql", ex].Sublist Δ) := by
  have hinc : nodesOf (inc_attempts s) = nodesOf s ++ [lc "attempt"] := by
    simp [nodesOf, inc_attempts, addTrace]
  obtain ⟨Δg, hΔg, hcase⟩ := gen_sql_nodes cfg O raw (inc_attempts s) s1 hg
  rcases hcase with hΔ1 | ⟨hΔ2, qv, hqne, hsql⟩
  · subst hΔ1
    obtain ⟨Δe, hΔe, hecase⟩ := exec_sql_nodes_any O di s1
    refine ⟨[lc "attempt", lc "llm_raw"] ++ Δe, ?_, ?_⟩
    · rw [hΔe, hΔg, hinc]
      simp
    · intro hmem
      exfalso
      rcases hecase with rfl | rfl | rfl <;> revert hmem <;> decide
  · subst hΔ2
    obtain ⟨ex, hexo, hΔe⟩ := exec_sql_nodes_pos O di s1 qv hsql hqne
    refine ⟨[lc "attempt", lc "llm_raw", lc "gen_sql", ex], ?_, ?_⟩
    · rw [hΔe, hΔg, hinc]
      simp
    · intro _
      refine ⟨ex, hexo, ?_⟩
      exact List.Sublist.cons _ (List.Sublist.cons _
        (List.Sublist.cons₂ _ (List.Sublist.cons₂ _ List.Sublist.slnil)))

/-- Trace shape of a completed loop run: the cycle events, then a final
`answer` event; any `gen_sql` event among the cycle events is followed by an
execution event. -/
theorem runLoop_nodes (cfg : AgentConfig) (O : Oracles) :
    ∀ (f li di : Nat) (log : List (List Char)) (s : QAState) (r : RunOut),
      runLoop cfg O f li di log s = .ok r →
      ∃ Δ, nodesOf r.state = nodesOf s ++ Δ ++ [lc "answer"] ∧
        ((lc "gen_sql") ∈ Δ → ∃ ex, (ex = lc "exec_sql" ∨ ex = lc "exec_sql_error") ∧
          [lc "gen_sql", ex].Sublist Δ) := by
  intro f
  induction f with
  | zero =>
    intro li di log s r hr
    exact absurd hr (by simp [runLoop])
  | succ f ih =>
    intro li di log s r hr
    unfold runLoop at hr
    cases hg : gen_sql cfg O (O.llm li (genPrompt (inc_attempts s))) (inc_attempts s) with
    | none =>
      rw [hg] at hr
      exact absurd hr (by simp)
    | some s1 =>
      rw [hg] at hr
      dsimp only at hr
      obtain ⟨Δc, hΔc, hPc⟩ := cycle_nodes cfg O _ di s s1 hg
      by_cases hsr : should_retry cfg (exec_sql O di s1).1 = true
      · rw [if_pos hsr] at hr
        obtain ⟨Δ', hΔ', hP'⟩ := ih _ _ _ _ r hr
        refine ⟨Δc ++ Δ', ?_, ?_⟩
        · rw [hΔ', hΔc]
          simp [List.append_assoc]
        · intro hmem
          rcases List.mem_append.mp hmem with hm | hm
          · obtain ⟨ex, ho, hsub⟩ := hPc hm
            exact ⟨ex, ho, hsub.trans (List.sublist_append_left Δc Δ')⟩
          · obtain ⟨ex, ho, hsub⟩ := hP' hm
            exact ⟨ex, ho, hsub.trans (List.sublist_append_right Δc Δ')⟩
      · rw [if_neg hsr] at hr
        have hre := Except.ok.inj hr
        refine ⟨Δc, ?_, hPc⟩
        rw [← hre]
        show nodesOf (answer O (li + 1) (exec_sql O di s1).1).1 = _
        rw [answer_nodes, hΔc]

/-- C8 (amended): every completed run's trace starts with the schema-loading
event and ends with the final-answer event; and whenever a generation event
(`gen_sql`, recorded when a cycle stored a validated query) appears, an
execution event appears as well, the four kinds occurring in the relative
order schema load, generation, execution, answer. -/
theorem c8_trace_order (cfg : AgentConfig) (O : Oracles) (q : List Char)
    (r : RunOut) (hr : run_question cfg O q = .ok r) :
    (nodesOf r.state).head? = some (lc "load_schema") ∧
    (nodesOf r.state).getLast? = some (lc "answer") ∧
    ((lc "gen_sql") ∈ nodesOf r.state →
      ∃ ex, (ex = lc "exec_sql" ∨ ex = lc "exec_sql_error") ∧
        [lc "load_schema", lc "gen_sql", ex, lc "answer"].Sublist (nodesOf r.state)) := by
  obtain ⟨Δ, hΔ, hP⟩ := runLoop_nodes cfg O (cfg.max_attempts + 1) 0 0 [] _ r hr
  have hload : nodesOf (load_schema O (initState q)) = [lc "load_schema"] := rfl
  rw [hload] at hΔ
  have hshape : nodesOf r.state = lc "load_schema" :: (Δ ++ [lc "answer"]) := by
    rw [hΔ]
    simp
  refine ⟨by rw [hshape]; rfl, ?_, ?_⟩
  · rw [hshape]
    have : lc "load_schema" :: (Δ ++ [lc "answer"]) =
        (lc "load_schema" :: Δ) ++ [lc "answer"] := by simp
    rw [this, List.getLast?_concat]
  · intro hmem
    rw [hshape] at hmem
    have hmem' : (lc "gen_sql") ∈ Δ := by
      rcases List.mem_cons.mp hmem with h | h
      · exact absurd h (by decide)
      · rcases List.mem_append.mp h with h2 | h2
        · exact h2
        · exact absurd h2 (by decide)
    obtain ⟨ex, ho, hsub⟩ := hP hmem'
    refine ⟨ex, ho, ?_⟩
    rw [hshape]
    exact List.Sublist.cons₂ _ (hsub.append (List.Sublist.refl [lc "answer"]))

/-- Counterexample oracle for C8: the model immediately asks to clarify. -/
def c8O : Oracles := oracleW
  (fun _ _ => lc "\x7b\"type\": \"clarify\", \"question\": \"Which?\"\x7d")
  (fun _ _ _ => .err (lc "e"))

/-- Counterexample to C8 as stated: this clarify-first session completes,
yet its trace contains no execution event at all (with an empty query,
`exec_sql` returns without tracing) and no `gen_sql` event either — only
schema load, attempt, the raw-response event and the answer. -/
theorem c8_counterexample :
    runTraceNodes (run_question cfgW c8O (lc "q")) =
      some [lc "load_schema", lc "attempt", lc "llm_raw", lc "answer"] ∧
    (lc "exec_sql") ∉ [lc "load_schema", lc "attempt", lc "llm_raw", lc "answer"] ∧
    (lc "exec_sql_error") ∉ [lc "load_schema", lc "attempt", lc "llm_raw", lc "answer"] ∧
    (lc "gen_sql") ∉ [lc "load_schema", lc "attempt", lc "llm_raw", lc "answer"] :=
  ⟨rfl, by decide, by decide, by decide⟩

/-- Witness oracle for the amended C8: a successful single-cycle run. -/
def c8wO : Oracles := oracleW
  (fun _ _ => lc "\x7b\"type\": \"sql\", \"sql\": \"SELECT a FROM t\"\x7d")
  (fun _ _ _ => .ok [lc "a"] [[.num (lc "1")]])

/-- Completed run used by the amended-C8 witness. -/
def c8r : RunOut :=
  (run_question cfgW c8wO (lc "q")).toOption.getD ⟨initState [], 0, 0, []⟩

/-- Witness for the amended C8 at a concrete successful run. -/
theorem c8_witness :
    run_question cfgW c8wO (lc "q") = .ok c8r ∧
    ((nodesOf c8r.state).head? = some (lc "load_schema") ∧
     (nodesOf c8r.state).getLast? = some (lc "answer") ∧
     ((lc "gen_sql") ∈ nodesOf c8r.state →
       ∃ ex, (ex = lc "exec_sql" ∨ ex = lc "exec_sql_error") ∧
         [lc "load_schema", lc "gen_sql", ex, lc "answer"].Sublist (nodesOf c8r.state))) :=
  ⟨rfl, c8_trace_order cfgW c8wO (lc "q") c8r rfl⟩
